import Mathlib

/-!
Shallow embedding of pystokab (src/pystokab.py), a client library for the
Stokab fiber-network availability API.

The HTTP transport and the pyproj projection math are modelled as explicit
parameters: an environment `Env` mapping a point id to the JSON array the
`availability/getByPointId` endpoint would return, and an abstract coordinate
transform `Transform` standing for `pyproj.transform` applied to a source
projection code.  Everything else is translated directly from the Python
source.  Fallible Python code (KeyError, IndexError, AttributeError, raised
exceptions) is modelled with `Option` / `Except`, and the network calls a
computation performs are returned as an explicit trace of fetched point ids.
-/

/-- Errors the embedded Python code can raise.  `stokabAPIException` models
the library's own `StokabAPIException`; `nameError` models a Python
`NameError` on an undefined name; `otherError` collapses the remaining
builtin exceptions (KeyError, IndexError, ...) that the claims do not
distinguish. -/
inductive PyErr where
  | stokabAPIException (message : String)
  | nameError (name : String)
  | otherError
  deriving DecidableEq

/-- Raw coordinate record of a point dataset: the `coordinates` JSON object
with its `projection`, `latitude` and `longitude` fields (native units of the
source reference system; the numeric type is irrelevant to the modelled
control flow). -/
structure CoordData where
  projection : String
  latitude : Int
  longitude : Int
  deriving DecidableEq

/-- One entry of a dataset's `relatedPointIds` JSON list; the code reads its
`name` field. -/
structure RelatedId where
  name : String
  deriving DecidableEq

/-- Dataset for one point, as returned (inside a JSON array) by the
availability endpoints.  Raw field mappings are kept as association lists. -/
structure PointData where
  pointId : String
  address : List (String × String)
  realEstate : List (String × String)
  coordinates : CoordData
  district : String
  cityArea : String
  fiberStatus : Int
  relatedPointIds : List RelatedId
  pointInfo : List (String × String)
  deriving DecidableEq

/-- Wrapper over the raw `address` mapping (class `Address`, a
`SimpleDataEntity`). -/
structure Address where
  data : List (String × String)
  deriving DecidableEq

/-- Wrapper over the raw `realEstate` mapping (class `RealEstate`). -/
structure RealEstate where
  data : List (String × String)
  deriving DecidableEq

/-- Wrapper over the raw `pointInfo` mapping (class `PointInfo`). -/
structure PointInfo where
  data : List (String × String)
  deriving DecidableEq

/-- Abstract stand-in for `pyproj.transform` with destination fixed to
`epsg:4326`: given the source projection code and the projected pair, it
returns the transformed (latitude, longitude) pair. -/
abbrev Transform := String → Int → Int → Int × Int

/-- The `projections` lookup table inside `Coordinates.__init__`, mapping a
projection name from the API data to the code handed to `pyproj.Proj`.
A name not in the table raises KeyError in Python (modelled as `none`). -/
def projections (name : String) : Option String :=
  if name = "RT90_2.5_GON_V_0:-15" then some "epsg:3021"
  else if name = "SWEREF99 TM" then some "epsg:3021"
  else none

/-- Class `Coordinates`: stores only the transformed WGS84 pair. -/
structure Coordinates where
  latitude : Int
  longitude : Int
  deriving DecidableEq

/-- Constructing `Coordinates` from a raw coordinate record
(`Coordinates.__init__`): look the projection name up in `projections`
(KeyError on an unknown name, modelled as `none`), then transform the pair
and keep only the result. -/
def Coordinates.init (tr : Transform) (d : CoordData) : Option Coordinates :=
  match projections d.projection with
  | none => none
  | some code =>
      let res := tr code d.latitude d.longitude
      some { latitude := res.1, longitude := res.2 }

/-- Class `Point`: a node of the fiber network with its sub-objects and the
recursively resolved list of related points. -/
inductive Point where
  | mk (point_id : String) (address : Address) (realestate : RealEstate)
       (coordinates : Coordinates) (district : String) (city_area : String)
       (fiber_status : Int) (related_points : List Point)
       (point_info : PointInfo)

def Point.point_id : Point → String
  | .mk i _ _ _ _ _ _ _ _ => i

def Point.address : Point → Address
  | .mk _ a _ _ _ _ _ _ _ => a

def Point.realestate : Point → RealEstate
  | .mk _ _ r _ _ _ _ _ _ => r

def Point.coordinates : Point → Coordinates
  | .mk _ _ _ c _ _ _ _ _ => c

def Point.district : Point → String
  | .mk _ _ _ _ d _ _ _ _ => d

def Point.city_area : Point → String
  | .mk _ _ _ _ _ c _ _ _ => c

def Point.fiber_status : Point → Int
  | .mk _ _ _ _ _ _ f _ _ => f

def Point.related_points : Point → List Point
  | .mk _ _ _ _ _ _ _ r _ => r

def Point.point_info : Point → PointInfo
  | .mk _ _ _ _ _ _ _ _ p => p

/-- The network environment: what the JSON array returned by
`availability/getByPointId?pointId=<id>` contains for each id (`none` models
a transport-level failure). -/
abbrev Env := String → Option (List PointData)

/-- The loop at the end of `Point.initialize` resolving `relatedPointIds`:
each entry is turned into a fully resolved `Point` by the supplied
fetch-by-id function (`Point(apiclient=..., point_id=related['name'])`), in
list order.  Returns the resolved points together with the concatenated
trace of fetched point ids. -/
def resolveRelatedWith (fetch : String → Option (Point × List String)) :
    List RelatedId → Option (List Point × List String)
  | [] => some ([], [])
  | r :: rest =>
      match fetch r.name with
      | none => none
      | some (p, c) =>
          match resolveRelatedWith fetch rest with
          | none => none
          | some (ps, cs) => some (p :: ps, c ++ cs)

/-- `Point.initialize` given a fetch-by-id function for related points:
builds the `Address`, `RealEstate`, `Coordinates` and `PointInfo`
sub-objects, copies the scalar fields, and resolves every related point.
Fails (Python exception) if the coordinate projection is unknown or any
related fetch fails. -/
def initializeFieldsWith (tr : Transform)
    (fetch : String → Option (Point × List String))
    (pid : String) (d : PointData) : Option (Point × List String) :=
  match Coordinates.init tr d.coordinates with
  | none => none
  | some coords =>
      match resolveRelatedWith fetch d.relatedPointIds with
      | none => none
      | some (rel, calls) =>
          some (Point.mk pid { data := d.address } { data := d.realEstate }
                  coords d.district d.cityArea d.fiberStatus rel
                  { data := d.pointInfo }, calls)

/-- The fetch-by-id entry path of `Point.__init__` (`data=None`): issue the
`getByPointId` GET (recorded in the trace), take element 0 of the JSON array
(`load_data`, IndexError on an empty array), then run `initialize`.  `fuel`
bounds the recursion depth, since the Python original recurses unboundedly
on cyclic data. -/
def mkFetch (tr : Transform) (env : Env) : Nat → String → Option (Point × List String)
  | 0 => fun _ => none
  | Nat.succ f =>
      let fetch := mkFetch tr env f
      fun pid =>
        match env pid with
        | none => none
        | some rows =>
            match rows.head? with
            | none => none
            | some d =>
                match initializeFieldsWith tr fetch pid d with
                | none => none
                | some (p, calls) => some (p, pid :: calls)

/-- `Point(apiclient, point_id)` with no dataset supplied: fetch by id and
initialize. -/
def fetchPoint (tr : Transform) (env : Env) (fuel : Nat) (pid : String) :
    Option (Point × List String) :=
  mkFetch tr env fuel pid

/-- `Point(apiclient, point_id, data=...)` followed by `initialize`: a point
constructed from an already-fetched dataset; related points are resolved via
the fetch-by-id path at the given fuel. -/
def initializeFields (tr : Transform) (env : Env) (fuel : Nat)
    (pid : String) (d : PointData) : Option (Point × List String) :=
  initializeFieldsWith tr (mkFetch tr env fuel) pid d

/-- A batch-listing response body (`getByEstate` / `getByAddress`): either a
JSON array of point datasets, or an error-envelope object containing a
`message` key. -/
inductive BatchResponse where
  | items (rows : List PointData)
  | errorEnvelope (message : String)

/-- The loop inside `initialize_points`: each row becomes
`Point(apiclient=self, point_id=point['pointId'], data=point)`. -/
def buildPoints (tr : Transform) (env : Env) (fuel : Nat) :
    List PointData → Except PyErr (List Point)
  | [] => Except.ok []
  | row :: rest =>
      match initializeFields tr env fuel row.pointId row with
      | none => Except.error PyErr.otherError
      | some (p, _) =>
          match buildPoints tr env fuel rest with
          | Except.error e => Except.error e
          | Except.ok ps => Except.ok (p :: ps)

/-- `StokabAPIClient.initialize_points`: if the response contains a
`message` key the code executes `raise StokabAPIException(data['message'])`,
but no variable `data` is in scope there (the response is bound to
`response`), so Python raises `NameError: name 'data' is not defined`
instead of the intended exception; otherwise one `Point` is built per row
from the embedded data. -/
def initialize_points (tr : Transform) (env : Env) (fuel : Nat)
    (response : BatchResponse) : Except PyErr (List Point) :=
  match response with
  | BatchResponse.errorEnvelope _ => Except.error (PyErr.nameError "data")
  | BatchResponse.items rows => buildPoints tr env fuel rows

/-- Raw `price` JSON object of a product. -/
structure PriceData where
  contractPeriodYears : Int
  oneTimeFee : Int
  monthlyFee : Int
  deriving DecidableEq

/-- Raw JSON object for one product of a price estimate. -/
structure ProductData where
  productId : String
  name : String
  productType : String
  comment : String
  price : PriceData
  deriving DecidableEq

/-- Class `Price`. -/
structure Price where
  contract_period : Int
  otc : Int
  mrc : Int
  deriving DecidableEq

/-- `Price.__init__`. -/
def Price.ofData (d : PriceData) : Price :=
  { contract_period := d.contractPeriodYears, otc := d.oneTimeFee,
    mrc := d.monthlyFee }

/-- `Price.total`: total cost over the contract period. -/
def Price.total (p : Price) : Int :=
  p.otc + (p.mrc * (p.contract_period * 12))

/-- `Price.spec`. -/
def Price.spec (p : Price) : Int × Int :=
  (p.otc, p.mrc)

/-- Class `Product`. -/
structure Product where
  product_id : String
  name : String
  product_type : String
  comment : String
  price : Price
  deriving DecidableEq

/-- `Product.__init__`. -/
def Product.ofData (d : ProductData) : Product :=
  { product_id := d.productId, name := d.name, product_type := d.productType,
    comment := d.comment, price := Price.ofData d.price }

/-- `Product.total`. -/
def Product.total (p : Product) : Int :=
  p.price.total

/-- Class `ProductList`. -/
structure ProductList where
  products : List Product
  deriving DecidableEq

/-- One iteration of the loop in `ProductList.cheapest`: keep the current
best, replacing it only when the next product's total is strictly smaller. -/
def cheapestStep (cheapest : Option Product) (product : Product) : Option Product :=
  match cheapest with
  | none => some product
  | some c => if product.total < c.total then some product else some c

/-- `ProductList.cheapest`: fold the loop body over the product sequence,
starting from `None`. -/
def ProductList.cheapest (pl : ProductList) : Option Product :=
  List.foldl cheapestStep none pl.products

/-- Proof helper: the product the loop ends up with when it starts from
current best `c` and scans `l`. -/
def runFrom (c : Product) : List Product → Product
  | [] => c
  | p :: rest => runFrom (if p.total < c.total then p else c) rest

/-- The client's session state (class `StokabAPIClient`).  The token fields
are assigned only by `acquire_token`, after construction; an unassigned
Python attribute is modelled as `none` (reading it raises AttributeError). -/
structure Session where
  client_id : String
  scopes : List String
  secret : String
  url : String
  token_acquired : Option Int
  token_type : Option String
  token_ttl : Option Int
  token : Option String
  deriving DecidableEq

/-- `StokabAPIClient._authorization_headers`: formats the Authorization
header from the token fields; fails (AttributeError) when they have not been
assigned yet. -/
def Session.authorization_headers (s : Session) : Option (List (String × String)) :=
  match s.token_type, s.token with
  | some tt, some tok => some [("Authorization", tt ++ " " ++ tok)]
  | _, _ => none

/-- The keyword arguments handed to `requests.get` / `requests.post`:
optional entries are present exactly when the corresponding Python `if`
fired.  `β` is the type of the JSON body, when one is sent. -/
structure Request (β : Type) where
  method : String
  url : String
  headers : Option (List (String × String))
  data : Option (List (String × String))
  json : Option β
  params : Option (List (String × String))
  deriving DecidableEq

/-- Python truthiness of an optional dict argument (`if data:` /
`if params:`): kept only when present and non-empty. -/
def truthyDict (d : Option (List (String × String))) : Option (List (String × String)) :=
  match d with
  | some (x :: xs) => some (x :: xs)
  | _ => none

/-- `StokabAPIClient.post`: builds the `requests.post` arguments.  With
`authenticate = true` the authorization headers are attached (the whole call
fails if the token fields are unset); with `authenticate = false` no headers
entry is added. -/
def post_request {β : Type} (s : Session) (path : String)
    (d : Option (List (String × String))) (j : Option β)
    (authenticate : Bool) : Option (Request β) :=
  match authenticate, s.authorization_headers with
  | true, none => none
  | true, some h =>
      some { method := "POST", url := s.url ++ path, headers := some h,
             data := truthyDict d, json := j, params := none }
  | false, _ =>
      some { method := "POST", url := s.url ++ path, headers := none,
             data := truthyDict d, json := j, params := none }

/-- `StokabAPIClient.get`: builds the `requests.get` arguments; the
authorization headers are always attached. -/
def get_request (s : Session) (path : String)
    (ps : Option (List (String × String))) : Option (Request Unit) :=
  match s.authorization_headers with
  | none => none
  | some h =>
      some { method := "GET", url := s.url ++ path, headers := some h,
             data := none, json := none, params := truthyDict ps }

/-- The `login` form body built by `acquire_token`. -/
def login_data (s : Session) : List (String × String) :=
  [("grant_type", "client_credentials"),
   ("client_id", s.client_id),
   ("scope", String.intercalate " " s.scopes),
   ("client_secret", s.secret)]

/-- The request issued by `acquire_token`: a POST of the login form to
`/connect/token` with `authenticate=False`. -/
def acquire_token_request (s : Session) : Option (Request Unit) :=
  post_request s "/connect/token" (some (login_data s)) none false

/-- The parsed JSON body returned by the token endpoint; each expected key
may be missing (reading a missing key raises KeyError). -/
structure RawTokenResponse where
  token_type : Option String
  expires_in : Option Int
  access_token : Option String
  deriving DecidableEq

/-- The state mutation performed by `acquire_token` once the token response
has been parsed, at wall-clock time `now` (`int(time.time())`).  The four
assignments happen in source order — `token_acquired`, then `token_type`
(KeyError here aborts), then `token_ttl`, then `token` — so on a missing key
the fields already assigned keep their new values while the rest are left
untouched.  The boolean is `true` iff no exception was raised. -/
def acquire_token_update (s : Session) (now : Int) (r : RawTokenResponse) :
    Session × Bool :=
  let s1 := { s with token_acquired := some now }
  match r.token_type with
  | none => (s1, false)
  | some tt =>
      let s2 := { s1 with token_type := some tt }
      match r.expires_in with
      | none => (s2, false)
      | some e =>
          let s3 := { s2 with token_ttl := some e }
          match r.access_token with
          | none => (s3, false)
          | some a => ({ s3 with token := some a }, true)

/-- The GET issued by `Point.load_data` for `get_point` and related-point
resolution. -/
def get_point_request (s : Session) (point_id : String) : Option (Request Unit) :=
  get_request s "/api/1.3/availability/getByPointId" (some [("pointId", point_id)])

/-- The GET issued by `get_points_by_realestate`: the realestate argument is
upper-cased, the estate suffix (Python default `""`) is passed through. -/
def get_points_by_realestate_request (s : Session) (realestate : String)
    (estatesuffix : String) : Option (Request Unit) :=
  get_request s "/api/1.3/availability/getByEstate"
    (some [("realestate", realestate.toUpper), ("estatesuffix", estatesuffix)])

/-- The GET issued by `get_points_by_address`: city, street and number are
passed through; `littera` (Python default `None`) is added only when truthy. -/
def get_points_by_address_request (s : Session) (city street number : String)
    (littera : Option String) : Option (Request Unit) :=
  let base := [("city", city), ("street", street), ("number", number)]
  let ps :=
    match littera with
    | some l => if l = "" then base else base ++ [("littera", l)]
    | none => base
  get_request s "/api/1.3/availability/getByAddress" (some ps)

/-- The GET issued by `get_framework_agreements`. -/
def get_framework_agreements_request (s : Session) : Option (Request Unit) :=
  get_request s "/api/1.3/frameworkAgreement" none

/-- The GET issued by `get_invoice_groups`. -/
def get_invoice_groups_request (s : Session) : Option (Request Unit) :=
  get_request s "/api/1.3/invoiceGroup" none

/-- The nested `{'pointId': ...}` objects of the estimate body. -/
structure PointRef where
  pointId : String
  deriving DecidableEq

/-- The JSON body `args` built by `estimate` (keys `from` and `to` are the
`fromPoint` / `toPoint` fields here, since `from` is reserved in Lean). -/
structure EstimateBody where
  invoiceGroupId : String
  frameworkAgreementId : String
  fromPoint : PointRef
  toPoint : PointRef
  customerType : String
  contractPeriodYears : Int
  noOfSingleFibers : Int
  noOfFiberPairs : Int
  deriving DecidableEq

/-- One element of the JSON array returned by `priceEstimate`; the code only
reads its `products` key. -/
structure EstimateItem where
  products : List ProductData

/-- `StokabAPIClient.estimate`: builds the JSON body (the Python defaults
for `singles` and `pairs` are `0`), POSTs it authenticated, takes element 0
of the response array (IndexError on an empty array) and wraps its
`products` entries, in order, into a `ProductList`. -/
def estimate (s : Session)
    (invoice_group_id framework_agreement_id from_point to_point customer_type : String)
    (years singles pairs : Int) (resp : List EstimateItem) :
    Option (Request EstimateBody × ProductList) :=
  let args : EstimateBody :=
    { invoiceGroupId := invoice_group_id,
      frameworkAgreementId := framework_agreement_id,
      fromPoint := { pointId := from_point },
      toPoint := { pointId := to_point },
      customerType := customer_type,
      contractPeriodYears := years,
      noOfSingleFibers := singles,
      noOfFiberPairs := pairs }
  match post_request s "/api/1.3/priceEstimate" none (some args) true with
  | none => none
  | some req =>
      match resp.head? with
      | none => none
      | some item => some (req, { products := item.products.map Product.ofData })

/-- Example transform used to evaluate the model on concrete inputs: passes
the projected pair through unchanged. -/
def trEx : Transform := fun _ a b => (a, b)

/-- Example dataset for point P2, with no related points. -/
def d2Ex : PointData :=
  { pointId := "P2", address := [("street", "A")], realEstate := [("name", "R")],
    coordinates := { projection := "SWEREF99 TM", latitude := 1, longitude := 2 },
    district := "D", cityArea := "C", fiberStatus := 0,
    relatedPointIds := [], pointInfo := [("status", "ok")] }

/-- Example dataset for point P1, whose only related point is P2. -/
def d1Ex : PointData :=
  { pointId := "P1", address := [("street", "B")], realEstate := [("name", "R")],
    coordinates := { projection := "RT90_2.5_GON_V_0:-15", latitude := 3, longitude := 4 },
    district := "D", cityArea := "C", fiberStatus := 1,
    relatedPointIds := [{ name := "P2" }], pointInfo := [] }

/-- Example environment: only P2 is known to the getByPointId endpoint. -/
def envEx : Env := fun pid => if pid = "P2" then some [d2Ex] else none

/-- The fully resolved point P2 under `trEx` / `envEx`. -/
def p2Ex : Point :=
  Point.mk "P2" { data := [("street", "A")] } { data := [("name", "R")] }
    { latitude := 1, longitude := 2 } "D" "C" 0 [] { data := [("status", "ok")] }

/-- The fully resolved point P1 under `trEx` / `envEx`: its sole related
point is the resolved P2. -/
def p1Ex : Point :=
  Point.mk "P1" { data := [("street", "B")] } { data := [("name", "R")] }
    { latitude := 3, longitude := 4 } "D" "C" 1 [p2Ex] { data := [] }

/-- Example session before any token acquisition. -/
def s0Ex : Session :=
  { client_id := "cid", scopes := ["scope1", "scope2"], secret := "sec",
    url := "https://api", token_acquired := none, token_type := none,
    token_ttl := none, token := none }

/-- The example session after a successful token acquisition at time 0 with
token type `Bearer` and access token `tok`. -/
def sAfterEx : Session :=
  { s0Ex with
    token_acquired := some 0, token_type := some "Bearer",
    token_ttl := some 3600, token := some "tok" }

/-- Example product data with total 1000 + 200 * 24 = 5800. -/
def pdAEx : ProductData :=
  { productId := "1", name := "a", productType := "t", comment := "",
    price := { contractPeriodYears := 2, oneTimeFee := 1000, monthlyFee := 200 } }

/-- Example product data with total 600 + 300 * 12 = 4200, the cheapest. -/
def pdBEx : ProductData :=
  { productId := "2", name := "b", productType := "t", comment := "",
    price := { contractPeriodYears := 1, oneTimeFee := 600, monthlyFee := 300 } }

/-- Example product data with total 0 + 250 * 36 = 9000. -/
def pdCEx : ProductData :=
  { productId := "3", name := "c", productType := "t", comment := "",
    price := { contractPeriodYears := 3, oneTimeFee := 0, monthlyFee := 250 } }

/-- Example product list with totals 5800, 4200, 9000. -/
def plEx : ProductList :=
  { products := [Product.ofData pdAEx, Product.ofData pdBEx, Product.ofData pdCEx] }

/-- Example price-estimate response element. -/
def itemEx : EstimateItem :=
  { products := [pdAEx, pdBEx] }

/-- Claim C1: the spec requires `initialize_points` to raise
`StokabAPIException` carrying the `message` string of an error-envelope
batch response.  The code instead executes
`raise StokabAPIException(data['message'])` where no variable `data` exists
in scope, so evaluating the argument raises `NameError: name 'data' is not
defined` and the envelope's message is never carried: for every
error-envelope response the result is a NameError on `data`, never a
`StokabAPIException`. -/
theorem claim_C1 (tr : Transform) (env : Env) (fuel : Nat) (msg : String) :
    initialize_points tr env fuel (BatchResponse.errorEnvelope msg)
        = Except.error (PyErr.nameError "data") ∧
    ∀ m, initialize_points tr env fuel (BatchResponse.errorEnvelope msg)
        ≠ Except.error (PyErr.stokabAPIException m) := by
  refine ⟨rfl, fun m h => ?_⟩
  simp [initialize_points] at h

/-- Claim C5: for all non-negative one-time fee, monthly fee and
contract-period years, `Price.total()` equals
`one_time_fee + monthly_fee * (contract_period_years * 12)`. -/
theorem claim_C5 (otc mrc years : Int)
    (_h1 : 0 ≤ otc) (_h2 : 0 ≤ mrc) (_h3 : 0 ≤ years) :
    (Price.ofData
      { contractPeriodYears := years, oneTimeFee := otc, monthlyFee := mrc }).total
      = otc + mrc * (years * 12) := rfl

/-- Witness for claim C5 at the spec's example: one-time fee 1000, monthly
fee 200, 2 years gives 5800. -/
theorem claim_C5_witness :
    (Price.ofData
      { contractPeriodYears := 2, oneTimeFee := 1000, monthlyFee := 200 }).total
      = 5800 := by
  rw [claim_C5 1000 200 2 (by decide) (by decide) (by decide)]
  decide

/-- Claim C6: for every projection name not present in the
coordinate-transform lookup table, the lookup misses (KeyError) and
constructing `Coordinates` fails with no fallback pair returned. -/
theorem claim_C6 (tr : Transform) (d : CoordData)
    (h1 : d.projection ≠ "RT90_2.5_GON_V_0:-15")
    (h2 : d.projection ≠ "SWEREF99 TM") :
    projections d.projection = none ∧ Coordinates.init tr d = none := by
  have hp : projections d.projection = none := by
    simp [projections, h1, h2]
  exact ⟨hp, by simp [Coordinates.init, hp]⟩

/-- Witness for claim C6: the unregistered projection name `WGS84` makes
`Coordinates` construction fail. -/
theorem claim_C6_witness :
    projections "WGS84" = none ∧
    Coordinates.init trEx { projection := "WGS84", latitude := 1, longitude := 2 }
        = none :=
  claim_C6 trEx { projection := "WGS84", latitude := 1, longitude := 2 }
    (by decide) (by decide)

/-- Claim C10: `acquire_token` is not atomic on failure.  Whichever expected
field is the first one missing from the parsed token response, the fields
assigned before it in source order — `token_acquired` always, then
`token_type`, then `token_ttl` — have already been updated when the KeyError
propagates, so the session is mutated even though the call fails. -/
theorem claim_C10 (s : Session) (now : Int) :
    (∀ e a, acquire_token_update s now
        { token_type := none, expires_in := e, access_token := a }
        = ({ s with token_acquired := some now }, false)) ∧
    (∀ tt a, acquire_token_update s now
        { token_type := some tt, expires_in := none, access_token := a }
        = ({ s with token_acquired := some now, token_type := some tt }, false)) ∧
    (∀ tt e, acquire_token_update s now
        { token_type := some tt, expires_in := some e, access_token := none }
        = ({ s with
              token_acquired := some now, token_type := some tt,
              token_ttl := some e }, false)) :=
  ⟨fun _ _ => rfl, fun _ _ => rfl, fun _ _ => rfl⟩

/-- Helper: a successful related-point resolution yields exactly one point
per `relatedPointIds` entry. -/
theorem resolveRelatedWith_length
    (fetch : String → Option (Point × List String)) :
    ∀ (l : List RelatedId) (ps : List Point) (cs : List String),
      resolveRelatedWith fetch l = some (ps, cs) → ps.length = l.length := by
  intro l
  induction l with
  | nil =>
    intro ps cs h
    simp [resolveRelatedWith] at h
    simp [h.1]
  | cons r rest ih =>
    intro ps cs h
    simp only [resolveRelatedWith] at h
    cases hf : fetch r.name with
    | none => rw [hf] at h; simp at h
    | some pc =>
      obtain ⟨p, c⟩ := pc
      rw [hf] at h
      cases hr : resolveRelatedWith fetch rest with
      | none => rw [hr] at h; simp at h
      | some pscs =>
        obtain ⟨ps', cs'⟩ := pscs
        rw [hr] at h
        simp only [Option.some.injEq, Prod.mk.injEq] at h
        rw [← h.1]
        simp [ih ps' cs' hr]

/-- Helper: a successful related-point resolution resolves the i-th entry,
in order, through the supplied fetch-by-id function applied to that entry's
name. -/
theorem resolveRelatedWith_get
    (fetch : String → Option (Point × List String)) :
    ∀ (l : List RelatedId) (ps : List Point) (cs : List String),
      resolveRelatedWith fetch l = some (ps, cs) →
      ∀ (i : Nat) (h1 : i < l.length) (h2 : i < ps.length),
        ∃ c, fetch (l.get ⟨i, h1⟩).name = some (ps.get ⟨i, h2⟩, c) := by
  intro l
  induction l with
  | nil =>
    intro ps cs h i h1 h2
    simp at h1
  | cons r rest ih =>
    intro ps cs h i h1 h2
    simp only [resolveRelatedWith] at h
    cases hf : fetch r.name with
    | none => rw [hf] at h; simp at h
    | some pc =>
      obtain ⟨p, c⟩ := pc
      rw [hf] at h
      cases hr : resolveRelatedWith fetch rest with
      | none => rw [hr] at h; simp at h
      | some pscs =>
        obtain ⟨ps', cs'⟩ := pscs
        rw [hr] at h
        simp only [Option.some.injEq, Prod.mk.injEq] at h
        obtain ⟨hps, hcs⟩ := h
        subst hps
        cases i with
        | zero => exact ⟨c, hf⟩
        | succ j =>
          simp only [List.length_cons, Nat.succ_lt_succ_iff] at h1 h2
          exact ih ps' cs' hr j h1 h2

/-- Helper: inversion of a successful `initializeFieldsWith`: the
coordinates resolved, the related points resolved, and the resulting point
is assembled from the dataset with exactly those related points. -/
theorem initializeFieldsWith_some (tr : Transform)
    (fetch : String → Option (Point × List String))
    (pid : String) (d : PointData) (p : Point) (calls : List String)
    (h : initializeFieldsWith tr fetch pid d = some (p, calls)) :
    ∃ coords rel,
      Coordinates.init tr d.coordinates = some coords ∧
      resolveRelatedWith fetch d.relatedPointIds = some (rel, calls) ∧
      p = Point.mk pid { data := d.address } { data := d.realEstate } coords
            d.district d.cityArea d.fiberStatus rel { data := d.pointInfo } := by
  simp only [initializeFieldsWith] at h
  cases hc : Coordinates.init tr d.coordinates with
  | none => rw [hc] at h; simp at h
  | some coords =>
    rw [hc] at h
    cases hr : resolveRelatedWith fetch d.relatedPointIds with
    | none => rw [hr] at h; simp at h
    | some relcalls =>
      obtain ⟨rel, calls'⟩ := relcalls
      rw [hr] at h
      simp only [Option.some.injEq, Prod.mk.injEq] at h
      obtain ⟨hp, hcalls⟩ := h
      subst hcalls
      exact ⟨coords, rel, rfl, rfl, hp.symm⟩

/-- Claim C2: for every point constructed from a dataset, `related_points`
has exactly one fully resolved point per `relatedPointIds` entry, in order,
each obtained via the fetch-by-id path keyed by that entry's name; an empty
`relatedPointIds` yields an empty `related_points` and an empty trace of
extra network calls, and a sole entry P2 whose fetch resolves with exactly
its own call yields that resolved point as the sole related point and
exactly the one call for P2. -/
theorem claim_C2 (tr : Transform) (env : Env) (fuel : Nat) (pid : String)
    (d : PointData) (p : Point) (calls : List String)
    (h : initializeFields tr env fuel pid d = some (p, calls)) :
    p.related_points.length = d.relatedPointIds.length ∧
    (∀ (i : Nat) (h1 : i < d.relatedPointIds.length)
        (h2 : i < p.related_points.length),
      ∃ c, fetchPoint tr env fuel (d.relatedPointIds.get ⟨i, h1⟩).name
          = some (p.related_points.get ⟨i, h2⟩, c)) ∧
    (d.relatedPointIds = [] → p.related_points = [] ∧ calls = []) ∧
    (∀ rid p2, d.relatedPointIds = [rid] →
      fetchPoint tr env fuel rid.name = some (p2, [rid.name]) →
      p.related_points = [p2] ∧ calls = [rid.name]) := by
  obtain ⟨coords, rel, hc, hr, hp⟩ :=
    initializeFieldsWith_some tr (mkFetch tr env fuel) pid d p calls h
  subst hp
  refine ⟨?_, ?_, ?_, ?_⟩
  · simpa [Point.related_points] using
      resolveRelatedWith_length (mkFetch tr env fuel) d.relatedPointIds rel calls hr
  · intro i h1 h2
    simp only [Point.related_points] at h2 ⊢
    exact resolveRelatedWith_get (mkFetch tr env fuel) d.relatedPointIds rel calls hr i h1 h2
  · intro hnil
    rw [hnil] at hr
    simp only [resolveRelatedWith, Option.some.injEq, Prod.mk.injEq] at hr
    exact ⟨by simp [Point.related_points, ← hr.1], hr.2.symm⟩
  · intro rid p2 hone hf
    have hf' : mkFetch tr env fuel rid.name = some (p2, [rid.name]) := hf
    rw [hone] at hr
    simp only [resolveRelatedWith, hf', List.append_nil,
      Option.some.injEq, Prod.mk.injEq] at hr
    exact ⟨by simp [Point.related_points, ← hr.1], hr.2.symm⟩

/-- Witness for claim C2: under the example environment, P1's dataset lists
only P2, the fetch for P2 resolves with exactly the call for P2, and the
resolved P1 has the resolved P2 as its sole related point. -/
theorem claim_C2_witness : p1Ex.related_points = [p2Ex] :=
  ((claim_C2 trEx envEx 1 "P1" d1Ex p1Ex ["P2"] rfl).2.2.2
    { name := "P2" } p2Ex rfl rfl).1

/-- Helper: once the accumulator of the `cheapest` fold is non-empty it
stays so, and the fold computes `runFrom`. -/
theorem foldl_cheapestStep (l : List Product) :
    ∀ c, List.foldl cheapestStep (some c) l = some (runFrom c l) := by
  induction l with
  | nil => intro c; rfl
  | cons p rest ih =>
    intro c
    show List.foldl cheapestStep (cheapestStep (some c) p) rest
        = some (runFrom c (p :: rest))
    by_cases hlt : p.total < c.total
    · simp only [cheapestStep, runFrom, if_pos hlt]
      exact ih p
    · simp only [cheapestStep, runFrom, if_neg hlt]
      exact ih c

/-- Helper: the product the loop keeps is either the starting best (then
nothing scanned is strictly smaller) or an element of the scanned list that
is strictly smaller than the starting best and than every element before
it, and no larger than anything scanned. -/
theorem runFrom_spec :
    ∀ (l : List Product) (c : Product),
      (runFrom c l = c ∧ ∀ q ∈ l, c.total ≤ q.total) ∨
      (∃ pre post, l = pre ++ runFrom c l :: post ∧
        (runFrom c l).total < c.total ∧
        (∀ q ∈ pre, (runFrom c l).total < q.total) ∧
        (∀ q ∈ l, (runFrom c l).total ≤ q.total)) := by
  intro l
  induction l with
  | nil => intro c; exact Or.inl ⟨rfl, by simp⟩
  | cons p rest ih =>
    intro c
    by_cases hlt : p.total < c.total
    · have hrun : runFrom c (p :: rest) = runFrom p rest := by
        simp [runFrom, hlt]
      rcases ih p with ⟨heq, hall⟩ | ⟨pre, post, hsplit, hlt2, hpre, hall⟩
      · refine Or.inr ⟨[], rest, ?_, ?_, by simp, ?_⟩
        · simp [hrun, heq]
        · rw [hrun, heq]; exact hlt
        · intro q hq
          rw [hrun, heq]
          rcases List.mem_cons.mp hq with hq | hq
          · rw [hq]
          · exact hall q hq
      · refine Or.inr ⟨p :: pre, post, ?_, ?_, ?_, ?_⟩
        · rw [hrun, List.cons_append, ← hsplit]
        · rw [hrun]; exact lt_trans hlt2 hlt
        · intro q hq
          rw [hrun]
          rcases List.mem_cons.mp hq with hq | hq
          · rw [hq]; exact hlt2
          · exact hpre q hq
        · intro q hq
          rw [hrun]
          rcases List.mem_cons.mp hq with hq | hq
          · rw [hq]; exact le_of_lt hlt2
          · exact hall q hq
    · have hrun : runFrom c (p :: rest) = runFrom c rest := by
        simp [runFrom, hlt]
      have hcp : c.total ≤ p.total := not_lt.mp hlt
      rcases ih c with ⟨heq, hall⟩ | ⟨pre, post, hsplit, hlt2, hpre, hall⟩
      · refine Or.inl ⟨by rw [hrun, heq], ?_⟩
        intro q hq
        rcases List.mem_cons.mp hq with hq | hq
        · rw [hq]; exact hcp
        · exact hall q hq
      · refine Or.inr ⟨p :: pre, post, ?_, ?_, ?_, ?_⟩
        · rw [hrun, List.cons_append, ← hsplit]
        · rw [hrun]; exact hlt2
        · intro q hq
          rw [hrun]
          rcases List.mem_cons.mp hq with hq | hq
          · rw [hq]; exact lt_of_lt_of_le hlt2 hcp
          · exact hpre q hq
        · intro q hq
          rw [hrun]
          rcases List.mem_cons.mp hq with hq | hq
          · rw [hq]; exact le_trans (le_of_lt hlt2) hcp
          · exact hall q hq

/-- Claim C4: `cheapest()` returns `None` exactly on an empty product
sequence, and otherwise returns a product of minimum `total()` that is
strictly smaller than every product occurring before it in the sequence —
i.e. the first-encountered minimum, under strictly-less comparison. -/
theorem claim_C4 (pl : ProductList) :
    (pl.cheapest = none ↔ pl.products = []) ∧
    (∀ p, pl.cheapest = some p →
      ∃ pre post, pl.products = pre ++ p :: post ∧
        (∀ q ∈ pre, p.total < q.total) ∧
        (∀ q ∈ pl.products, p.total ≤ q.total)) := by
  obtain ⟨prods⟩ := pl
  cases prods with
  | nil =>
    constructor
    · simp [ProductList.cheapest]
    · intro p hp
      simp [ProductList.cheapest] at hp
  | cons p0 rest =>
    have hch : ProductList.cheapest ⟨p0 :: rest⟩ = some (runFrom p0 rest) := by
      show List.foldl cheapestStep (cheapestStep none p0) rest
          = some (runFrom p0 rest)
      exact foldl_cheapestStep rest p0
    constructor
    · simp [hch]
    · intro p hp
      rw [hch] at hp
      have hpp : runFrom p0 rest = p := Option.some.inj hp
      rcases runFrom_spec rest p0 with ⟨heq, hall⟩ | ⟨pre, post, hsplit, hlt2, hpre, hall⟩
    
      · refine ⟨[], rest, ?_, by simp, ?_⟩
        · simp [← hpp, heq]
        · intro q hq
          rw [← hpp, heq]
          rcases List.mem_cons.mp hq with hq | hq
          · rw [hq]
          · exact hall q hq
      · refine ⟨p0 :: pre, post, ?_, ?_, ?_⟩
        · rw [← hpp, List.cons_append, ← hsplit]
        · intro q hq
          rcases List.mem_cons.mp hq with hq | hq
          · rw [hq, ← hpp]; exact hlt2
          · rw [← hpp]; exact hpre q hq
        · intro q hq
          rcases List.mem_cons.mp hq with hq | hq
          · rw [hq, ← hpp]; exact le_of_lt hlt2
          · rw [← hpp]; exact hall q hq

/-- Witness for claim C4 at the spec's example totals 5800, 4200, 9000: the
product with total 4200 is returned and is a first-encountered minimum. -/
theorem claim_C4_witness :
    ∃ pre post, plEx.products = pre ++ Product.ofData pdBEx :: post ∧
      (∀ q ∈ pre, (Product.ofData pdBEx).total < q.total) ∧
      (∀ q ∈ plEx.products, (Product.ofData pdBEx).total ≤ q.total) :=
  (claim_C4 plEx).2 (Product.ofData pdBEx) rfl

/-- Claim C3: after a successful `acquire_token`, the session's
authorization header is exactly the response's token type, a single space,
and the access token; every request builder of the client — the generic
authenticated GET and POST helpers and each domain operation — attaches
exactly that header, while the token-acquisition POST is built with
`authenticate=False` and is the only request carrying no headers entry. -/
theorem claim_C3 (s sp : Session) (now : Int) (r : RawTokenResponse)
    (tt tok : String)
    (htt : r.token_type = some tt) (hak : r.access_token = some tok)
    (h : acquire_token_update s now r = (sp, true)) :
    sp.authorization_headers = some [("Authorization", tt ++ " " ++ tok)] ∧
    (∀ path ps, ∃ req, get_request sp path ps = some req ∧
      req.headers = some [("Authorization", tt ++ " " ++ tok)]) ∧
    (∀ (β : Type) path d (j : Option β), ∃ req,
      post_request sp path d j true = some req ∧
      req.headers = some [("Authorization", tt ++ " " ++ tok)]) ∧
    (∀ pid, ∃ req, get_point_request sp pid = some req ∧
      req.headers = some [("Authorization", tt ++ " " ++ tok)]) ∧
    (∀ re suf, ∃ req, get_points_by_realestate_request sp re suf = some req ∧
      req.headers = some [("Authorization", tt ++ " " ++ tok)]) ∧
    (∀ city street number littera, ∃ req,
      get_points_by_address_request sp city street number littera = some req ∧
      req.headers = some [("Authorization", tt ++ " " ++ tok)]) ∧
    (∃ req, get_framework_agreements_request sp = some req ∧
      req.headers = some [("Authorization", tt ++ " " ++ tok)]) ∧
    (∃ req, get_invoice_groups_request sp = some req ∧
      req.headers = some [("Authorization", tt ++ " " ++ tok)]) ∧
    (∀ inv fra fp tp ct years singles pairs item rest, ∃ req pl,
      estimate sp inv fra fp tp ct years singles pairs (item :: rest)
        = some (req, pl) ∧
      req.headers = some [("Authorization", tt ++ " " ++ tok)]) ∧
    (∃ req, acquire_token_request sp = some req ∧ req.headers = none) := by
  obtain ⟨rtt, rei, rat⟩ := r
  simp only at htt hak
  subst htt hak
  cases rei with
  | none => simp [acquire_token_update] at h
  | some e =>
    have hsp : sp = { s with
        token_acquired := some now, token_type := some tt,
        token_ttl := some e, token := some tok } := by
      have := congrArg Prod.fst h
      simpa [acquire_token_update] using this.symm
    subst hsp
    have hauth : Session.authorization_headers { s with
        token_acquired := some now, token_type := some tt,
        token_ttl := some e, token := some tok }
        = some [("Authorization", tt ++ " " ++ tok)] := rfl
    refine ⟨hauth, ?_, ?_, ?_, ?_, ?_, ?_, ?_, ?_, ?_⟩
    · intro path ps
      exact ⟨_, rfl, rfl⟩
    · intro β path d j
      exact ⟨_, rfl, rfl⟩
    · intro pid
      exact ⟨_, rfl, rfl⟩
    · intro re suf
      exact ⟨_, rfl, rfl⟩
    · intro city street number littera
      exact ⟨_, rfl, rfl⟩
    · exact ⟨_, rfl, rfl⟩
    · exact ⟨_, rfl, rfl⟩
    · intro inv fra fp tp ct years singles pairs item rest
      exact ⟨_, _, rfl, rfl⟩
    · exact ⟨_, rfl, rfl⟩

/-- Witness for claim C3 at a concrete token response: acquiring with token
type `Bearer` and access token `tok` yields the header `Bearer tok`. -/
theorem claim_C3_witness :
    Session.authorization_headers sAfterEx
        = some [("Authorization", "Bearer" ++ " " ++ "tok")] :=
  (claim_C3 s0Ex sAfterEx 0
    { token_type := some "Bearer", expires_in := some 3600,
      access_token := some "tok" }
    "Bearer" "tok" rfl rfl rfl).1

/-- Claim C7: `acquire_token` POSTs a client-credentials grant with the
client id, the scopes joined by single spaces, and the secret to the token
endpoint with no authentication headers; a response carrying all expected
fields records the access token, token type, TTL and the wall-clock
acquisition timestamp; a response lacking any expected field makes the call
fail. -/
theorem claim_C7 (s : Session) (now : Int) :
    (∃ req, acquire_token_request s = some req ∧
      req.method = "POST" ∧
      req.url = s.url ++ "/connect/token" ∧
      req.headers = none ∧
      req.data = some [("grant_type", "client_credentials"),
                       ("client_id", s.client_id),
                       ("scope", String.intercalate " " s.scopes),
                       ("client_secret", s.secret)]) ∧
    (∀ tt e a, acquire_token_update s now
        { token_type := some tt, expires_in := some e, access_token := some a }
        = ({ s with
              token_acquired := some now, token_type := some tt,
              token_ttl := some e, token := some a }, true)) ∧
    (∀ r : RawTokenResponse,
      r.token_type = none ∨ r.expires_in = none ∨ r.access_token = none →
      (acquire_token_update s now r).2 = false) := by
  refine ⟨⟨_, rfl, rfl, rfl, rfl, rfl⟩, fun tt e a => rfl, ?_⟩
  intro r hmiss
  obtain ⟨rtt, rei, rat⟩ := r
  simp only at hmiss
  rcases hmiss with h | h | h <;> subst h
  · rfl
  · cases rtt <;> rfl
  · cases rtt <;> try rfl
    cases rei <;> rfl

/-- Witness for claim C7: a token response missing `access_token` makes the
acquisition fail. -/
theorem claim_C7_witness :
    (acquire_token_update s0Ex 5
      { token_type := some "Bearer", expires_in := some 3600,
        access_token := none }).2 = false :=
  (claim_C7 s0Ex 5).2.2
    { token_type := some "Bearer", expires_in := some 3600, access_token := none }
    (Or.inr (Or.inr rfl))

/-- Claim C9: `get_points_by_realestate` sends the realestate query
parameter upper-cased and the estate suffix unchanged, and
`get_points_by_address` sends city, street and number unchanged, plus the
littera value unchanged whenever one is supplied and non-empty. -/
theorem claim_C9 :
    (∀ (s : Session) (re suf : String) req,
      get_points_by_realestate_request s re suf = some req →
      req.params = some [("realestate", re.toUpper), ("estatesuffix", suf)]) ∧
    (∀ (s : Session) (city street number : String) (littera : Option String) req,
      get_points_by_address_request s city street number littera = some req →
      ∃ ps, req.params = some ps ∧
        ("city", city) ∈ ps ∧ ("street", street) ∈ ps ∧ ("number", number) ∈ ps ∧
        ∀ l, littera = some l → l ≠ "" → ("littera", l) ∈ ps) := by
  constructor
  · intro s re suf req h
    simp only [get_points_by_realestate_request, get_request] at h
    cases ha : s.authorization_headers with
    | none => rw [ha] at h; simp at h
    | some hd =>
      rw [ha] at h
      simp only [Option.some.injEq] at h
      rw [← h]
      rfl
  · intro s city street number littera req h
    simp only [get_points_by_address_request, get_request] at h
    cases ha : s.authorization_headers with
    | none => rw [ha] at h; simp at h
    | some hd =>
      rw [ha] at h
      simp only [Option.some.injEq] at h
      cases littera with
      | none =>
        refine ⟨[("city", city), ("street", street), ("number", number)],
          by rw [← h]; rfl, by simp, by simp, by simp, ?_⟩
        intro l hl
        simp at hl
      | some l0 =>
        by_cases hl0 : l0 = ""
        · subst hl0
          refine ⟨[("city", city), ("street", street), ("number", number)],
            by rw [← h]; simp [truthyDict], by simp, by simp, by simp, ?_⟩
          intro l hl hne
          simp only [Option.some.injEq] at hl
          subst hl
          exact absurd rfl hne
        · refine ⟨[("city", city), ("street", street), ("number", number),
            ("littera", l0)],
            by rw [← h]; simp [truthyDict, hl0], by simp, by simp, by simp, ?_⟩
          intro l hl hne
          simp only [Option.some.injEq] at hl
          subst hl
          simp

/-- Witness for claim C9: with realestate `abc` the request carries
`realestate=ABC` and the suffix unchanged. -/
theorem claim_C9_witness :
    ({ method := "GET",
       url := "https://api" ++ "/api/1.3/availability/getByEstate",
       headers := some [("Authorization", "Bearer" ++ " " ++ "tok")],
       data := none, json := none,
       params := some [("realestate", "abc".toUpper), ("estatesuffix", "x")] }
      : Request Unit).params
      = some [("realestate", "abc".toUpper), ("estatesuffix", "x")] :=
  claim_C9.1 sAfterEx "abc" "x" _ rfl

/-- Claim C8: for a non-empty price-estimate response, `estimate` with the
default zero counts of single fibers and fiber pairs returns the
`ProductList` built from the `products` array of the first response
element, one `Product` per entry in the same order, and the request body
carries zero for both counts. -/
theorem claim_C8 (s : Session)
    (inv fra fp tp ct : String) (years : Int)
    (item : EstimateItem) (rest : List EstimateItem)
    (req : Request EstimateBody) (pl : ProductList)
    (h : estimate s inv fra fp tp ct years 0 0 (item :: rest) = some (req, pl)) :
    pl.products = item.products.map Product.ofData ∧
    pl.products.length = item.products.length ∧
    (∀ (i : Nat) (h1 : i < pl.products.length) (h2 : i < item.products.length),
      pl.products.get ⟨i, h1⟩ = Product.ofData (item.products.get ⟨i, h2⟩)) ∧
    req.json = some
      { invoiceGroupId := inv, frameworkAgreementId := fra,
        fromPoint := { pointId := fp }, toPoint := { pointId := tp },
        customerType := ct, contractPeriodYears := years,
        noOfSingleFibers := 0, noOfFiberPairs := 0 } := by
  simp only [estimate, post_request] at h
  cases ha : s.authorization_headers with
  | none => rw [ha] at h; simp at h
  | some hd =>
    rw [ha] at h
    simp only [List.head?, Option.some.injEq, Prod.mk.injEq] at h
    obtain ⟨hreq, hpl⟩ := h
    subst hreq
    subst hpl
    refine ⟨rfl, by simp, ?_, rfl⟩
    intro i h1 h2
    simp [List.get_eq_getElem, List.getElem_map]

/-- Witness for claim C8 at a concrete session and response: the product
list mirrors the first element's products. -/
theorem claim_C8_witness :
    ({ products := itemEx.products.map Product.ofData } : ProductList).products
      = itemEx.products.map Product.ofData :=
  (claim_C8 sAfterEx "ig" "fa" "A" "B" "biz" 2 itemEx [] _ _ rfl).1

/-- Witness for claim C1 at the spec's failing input: the error envelope
with message `not found` yields the NameError on `data`, not a
`StokabAPIException`. -/
theorem claim_C1_witness :
    initialize_points trEx envEx 1 (BatchResponse.errorEnvelope "not found")
        = Except.error (PyErr.nameError "data") :=
  (claim_C1 trEx envEx 1 "not found").1
